import Mathlib

/-!
Verification development for the plant-disease diagnosis confidence-scoring
engine (`scripts/diagnose.py`).  The Python functions are shallowly embedded
as Lean definitions: similarity scores are modelled as rationals, Python
dictionaries with possibly-missing keys as structures with `Option` fields
read through `Option.getD` (mirroring `dict.get(key, default)`), and the
wall-clock month read by the seasonal scorer is passed as an explicit
parameter.  The value `float('inf')` produced by the relative-confidence
division is modelled by an explicit non-finite constructor of `PyFloat`.
-/

attribute [local semireducible] Rat.mul Rat.inv Rat.add Rat.sub

/-- A Python float that is either an ordinary (finite) number, modelled as a
rational, or the non-finite value produced by `float('inf')`. -/
inductive PyFloat where
  | finite (q : ℚ)
  | inf
deriving DecidableEq, Repr

/-- A candidate record returned by similarity retrieval.  Every field may be
absent (the source reads each one with `dict.get(key, default)`), so each is
an `Option`. -/
structure Candidate where
  disease_name : Option String := none
  similarity : Option ℚ := none
  description : Option String := none
  symptoms : Option String := none
  recommendation : Option String := none
deriving DecidableEq, Repr

/-- One entry of the `symptom_overlap` list: built in
`calculate_confidence_metrics` as `{"disease": ..., "overlap_score": ...}`. -/
structure OverlapEntry where
  disease : String
  overlap_score : ℚ
deriving DecidableEq, Repr

/-- The dictionary built by `calculate_confidence_metrics` for a non-empty
candidate list (all six keys are always present in that case). -/
structure Metrics where
  absolute_confidence : ℚ
  relative_confidence : PyFloat
  confidence_margin : ℚ
  diagnosis_clarity : ℚ
  symptom_overlap : List OverlapEntry
  seasonal_relevance : ℚ
deriving DecidableEq, Repr

/-- The stop-word set removed before the Jaccard comparison
(`common_words` in `calculate_symptom_overlap`). -/
def common_words : Finset String :=
  {"and", "or", "the", "in", "on", "at", "to", "of", "with", "may", "can"}

/-- Character-level normalization applied by
`symptoms.lower().replace(',', ' ').replace('.', ' ')`: commas and periods
become spaces, everything else is lower-cased. -/
def normalize_char (c : Char) : Char :=
  if c = ',' ∨ c = '.' then ' ' else c.toLower

/-- Splits a character list into maximal whitespace-free words, as Python
`str.split()` with no argument does (empty words are never produced). -/
def splitWords : List Char → List Char → List String
  | [], acc => if acc = [] then [] else [String.mk acc.reverse]
  | c :: cs, acc =>
    if c.isWhitespace then
      if acc = [] then splitWords cs [] else String.mk acc.reverse :: splitWords cs []
    else splitWords cs (c :: acc)

/-- The inner `process_symptoms` of `calculate_symptom_overlap`: lower-case,
replace commas and periods with spaces, split into the set of words, and
remove the stop words. -/
def process_symptoms (symptoms : String) : Finset String :=
  (splitWords (symptoms.data.map normalize_char) []).toFinset \ common_words

/-- `calculate_symptom_overlap`: Jaccard similarity of the two processed word
sets, with 0.0 returned when either raw input or either processed set is
empty (Python `if not s` on a string tests emptiness). -/
def calculate_symptom_overlap (primary_symptoms alternative_symptoms : String) : ℚ :=
  if primary_symptoms = "" ∨ alternative_symptoms = "" then 0
  else
    let primary_set := process_symptoms primary_symptoms
    let alternative_set := process_symptoms alternative_symptoms
    if primary_set = ∅ ∨ alternative_set = ∅ then 0
    else
      let overlap := (primary_set ∩ alternative_set).card
      let total := (primary_set ∪ alternative_set).card
      if 0 < total then (overlap : ℚ) / (total : ℚ) else 0

/-- Python `str.lower()`, applied character by character (the table keys and
disease names are ASCII, where `Char.toLower` agrees with Python). -/
def lower_str (s : String) : String :=
  String.mk (s.data.map Char.toLower)

/-- The fixed seasonal table of `calculate_seasonal_relevance`: for each
lower-cased disease name, its `peak_months` and `moderate_months`. -/
def seasonal_patterns : List (String × List ℕ × List ℕ) :=
  [("bacterial spot", ([6, 7, 8], [5, 9])),
   ("early blight", ([7, 8], [6, 9])),
   ("late blight", ([8, 9], [7, 10])),
   ("leaf mold", ([6, 7, 8, 9], [5, 10])),
   ("septoria leaf spot", ([7, 8], [6, 9]))]

/-- `calculate_seasonal_relevance`.  The source reads
`datetime.now().month`; here the current month is an explicit parameter.
Unknown (lower-cased) names score 0.5; otherwise 1.0 in a peak month,
0.7 in a moderate month, 0.3 in any other month. -/
def calculate_seasonal_relevance (disease_name : String) (current_month : ℕ) : ℚ :=
  match seasonal_patterns.find? (fun p => p.1 = lower_str disease_name) with
  | none => 1/2
  | some p =>
    if current_month ∈ p.2.1 then 1
    else if current_month ∈ p.2.2 then 7/10
    else 3/10

/-- `calculate_confidence_metrics`.  The empty candidate list returns the
empty dictionary `{}` (modelled as `none`); otherwise all six keys are set.
The comparative branch (`len(confidences) > 1`) computes the relative
confidence (with `float('inf')` when `confidences[1]` is not positive), the
margin, the clarity, one overlap entry per non-primary candidate, and the
seasonal relevance of the primary disease name. -/
def calculate_confidence_metrics : List Candidate → ℕ → Option Metrics
  | [], _ => none
  | [d0], _ =>
    some { absolute_confidence := d0.similarity.getD 0
           relative_confidence := PyFloat.finite 0
           confidence_margin := 0
           diagnosis_clarity := 0
           symptom_overlap := []
           seasonal_relevance := 0 }
  | d0 :: d1 :: rest, current_month =>
    let primary_confidence := d0.similarity.getD 0
    let second_confidence := d1.similarity.getD 0
    let other_confidences := (d1 :: rest).map (fun d => d.similarity.getD 0)
    let avg_other_confidence := other_confidences.sum / (other_confidences.length : ℚ)
    let primary_symptoms := d0.symptoms.getD ""
    some { absolute_confidence := primary_confidence
           relative_confidence :=
             if second_confidence > 0 then
               PyFloat.finite (primary_confidence / second_confidence)
             else PyFloat.inf
           confidence_margin := primary_confidence - second_confidence
           diagnosis_clarity :=
             if primary_confidence > 0 then
               (primary_confidence - avg_other_confidence) / primary_confidence
             else 0
           symptom_overlap :=
             (d1 :: rest).map (fun d =>
               { disease := d.disease_name.getD "Unknown"
                 overlap_score :=
                   calculate_symptom_overlap primary_symptoms (d.symptoms.getD "") })
           seasonal_relevance :=
             calculate_seasonal_relevance (d0.disease_name.getD "") current_month }

/-- Reads `confidence_metrics.get("absolute_confidence", 0.0)` on the
possibly-empty metrics dictionary. -/
def get_absolute_confidence (cm : Option Metrics) : ℚ :=
  (cm.map (fun m => m.absolute_confidence)).getD 0

/-- Reads `confidence_metrics.get("relative_confidence", 0.0)`. -/
def get_relative_confidence (cm : Option Metrics) : PyFloat :=
  (cm.map (fun m => m.relative_confidence)).getD (PyFloat.finite 0)

/-- Reads `confidence_metrics.get("confidence_margin", 0.0)`. -/
def get_confidence_margin (cm : Option Metrics) : ℚ :=
  (cm.map (fun m => m.confidence_margin)).getD 0

/-- Reads `confidence_metrics.get("diagnosis_clarity", 0.0)`. -/
def get_diagnosis_clarity (cm : Option Metrics) : ℚ :=
  (cm.map (fun m => m.diagnosis_clarity)).getD 0

/-- Reads `confidence_metrics.get("symptom_overlap", [])`. -/
def get_symptom_overlap (cm : Option Metrics) : List OverlapEntry :=
  (cm.map (fun m => m.symptom_overlap)).getD []

/-- Reads `confidence_metrics.get("seasonal_relevance", 0.0)`. -/
def get_seasonal_relevance (cm : Option Metrics) : ℚ :=
  (cm.map (fun m => m.seasonal_relevance)).getD 0

/-- The `confidence_metrics` sub-object of a successful diagnosis
(`results["diagnosis"]["confidence_metrics"]`). -/
structure ConfMetricsOut where
  relative_confidence : PyFloat
  confidence_margin : ℚ
  diagnosis_clarity : ℚ
  symptom_overlap : List OverlapEntry
  seasonal_relevance : ℚ
deriving DecidableEq, Repr

/-- The `diagnosis` sub-object of a successful result. -/
structure Diagnosis where
  primary_disease : String
  confidence : ℚ
  description : String
  symptoms : String
  recommendation : String
  confidence_metrics : ConfMetricsOut
deriving DecidableEq, Repr

/-- One entry of `alternative_diagnoses`. -/
structure AltDiagnosis where
  disease_name : String
  confidence : ℚ
  description : String
deriving DecidableEq, Repr

/-- The dictionary returned by `diagnose_plant_disease`: on failure only
`success` and `error` are present; on success `diagnosis` and
`alternative_diagnoses` are present and `error` is absent. -/
structure DiagnosisResult where
  success : Bool
  error : Option String
  diagnosis : Option Diagnosis
  alternative_diagnoses : Option (List AltDiagnosis)
deriving DecidableEq, Repr

/-- The candidate-list-to-result tail of `diagnose_plant_disease` (the
diagnosis assembler, source lines 220-254): the model loading, embedding
generation and retrieval that precede it are external collaborators, so the
already-retrieved candidate list is the input here.  The empty list yields
the failure dictionary with error "No similar diseases found"; otherwise the
result is assembled from the primary candidate, the metrics dictionary read
through `get` with 0.0/[] defaults, and one alternative per remaining
candidate. -/
def diagnose_from_candidates : List Candidate → ℕ → DiagnosisResult
  | [], _ =>
    { success := false
      error := some "No similar diseases found"
      diagnosis := none
      alternative_diagnoses := none }
  | d0 :: rest, current_month =>
    let cm := calculate_confidence_metrics (d0 :: rest) current_month
    { success := true
      error := none
      diagnosis := some
        { primary_disease := d0.disease_name.getD "Unknown Disease"
          confidence := d0.similarity.getD 0
          description := d0.description.getD "No description available"
          symptoms := d0.symptoms.getD "No symptoms information available"
          recommendation := d0.recommendation.getD "No recommendations available"
          confidence_metrics :=
            { relative_confidence := get_relative_confidence cm
              confidence_margin := get_confidence_margin cm
              diagnosis_clarity := get_diagnosis_clarity cm
              symptom_overlap := get_symptom_overlap cm
              seasonal_relevance := get_seasonal_relevance cm } }
      alternative_diagnoses := some
        (rest.map (fun d =>
          { disease_name := d.disease_name.getD "Unknown Disease"
            confidence := d.similarity.getD 0
            description := d.description.getD "No description available" })) }

/-- The embedding-length normalization step of `generate_clip_embedding`
(source lines 58-65).  The source fixes the target dimensionality at 768;
it appears here as the parameter `D`: vectors of length `D` pass through
unchanged, shorter ones are right-padded with zeros (`np.pad`), longer ones
truncated to the first `D` elements. -/
def normalize_embedding (embedding : List ℚ) (D : ℕ) : List ℚ :=
  if embedding.length ≠ D then
    if embedding.length < D then embedding ++ List.replicate (D - embedding.length) 0
    else embedding.take D
  else embedding

/-!
Helper lemmas shared by the claim theorems.
-/

/-- Unfolding lemma for `calculate_symptom_overlap`, with the `let` bindings
expanded. -/
theorem calculate_symptom_overlap_eq (a b : String) :
    calculate_symptom_overlap a b =
      if a = "" ∨ b = "" then 0
      else if process_symptoms a = ∅ ∨ process_symptoms b = ∅ then 0
      else if 0 < (process_symptoms a ∪ process_symptoms b).card then
        ((process_symptoms a ∩ process_symptoms b).card : ℚ) /
          ((process_symptoms a ∪ process_symptoms b).card : ℚ)
      else 0 := rfl

/-- The empty string processes to the empty word set. -/
theorem process_symptoms_empty : process_symptoms "" = ∅ := by decide

/-- Overlap with an empty first argument is 0. -/
theorem calculate_symptom_overlap_empty_left (b : String) :
    calculate_symptom_overlap "" b = 0 := by
  rw [calculate_symptom_overlap_eq, if_pos (Or.inl rfl)]

/-- Overlap with an empty second argument is 0. -/
theorem calculate_symptom_overlap_empty_right (a : String) :
    calculate_symptom_overlap a "" = 0 := by
  rw [calculate_symptom_overlap_eq, if_pos (Or.inr rfl)]

/-- The absolute confidence reported for any non-empty candidate list is the
primary candidate's similarity (missing similarity read as 0). -/
theorem get_absolute_confidence_cons (c : Candidate) (alts : List Candidate)
    (current_month : ℕ) :
    get_absolute_confidence (calculate_confidence_metrics (c :: alts) current_month) =
      c.similarity.getD 0 := by
  cases alts with
  | nil => rfl
  | cons d1 rest => rfl

/-!
Claim theorems.
-/

/-- C1, counterexample: for the empty candidate list the assembler does fail
with no payload, but its error message is "No similar diseases found", not
the claimed "no similar matches found". -/
theorem C1_counterexample :
    (diagnose_from_candidates [] 1).success = false ∧
    (diagnose_from_candidates [] 1).error ≠ some "no similar matches found" := by
  decide

/-- C1, amended: for the empty candidate list the assembler returns a failure
result with success flag false, error message exactly "No similar diseases
found", and no diagnosis payload (no diagnosis object, no alternatives). -/
theorem C1_empty_failure (current_month : ℕ) :
    diagnose_from_candidates [] current_month =
      { success := false
        error := some "No similar diseases found"
        diagnosis := none
        alternative_diagnoses := none } := rfl

/-- C3: for the empty candidate list the metrics calculator returns the empty
dictionary `{}`; read through the source's own `get(key, default)` accessors
(defaults 0.0 and []), every numeric field is 0.0 and `symptom_overlap` is
the empty sequence. -/
theorem C3_empty_metrics_zeroed (current_month : ℕ) :
    calculate_confidence_metrics [] current_month = none ∧
    get_absolute_confidence (calculate_confidence_metrics [] current_month) = 0 ∧
    get_relative_confidence (calculate_confidence_metrics [] current_month) =
      PyFloat.finite 0 ∧
    get_confidence_margin (calculate_confidence_metrics [] current_month) = 0 ∧
    get_diagnosis_clarity (calculate_confidence_metrics [] current_month) = 0 ∧
    get_seasonal_relevance (calculate_confidence_metrics [] current_month) = 0 ∧
    get_symptom_overlap (calculate_confidence_metrics [] current_month) = [] :=
  ⟨rfl, rfl, rfl, rfl, rfl, rfl, rfl⟩

/-- C5: for a single-candidate list the metrics dictionary has
`absolute_confidence` equal to the candidate's similarity and every
comparative field at its zero default with `symptom_overlap` empty, and the
assembled result carries exactly those zero-default comparative metrics and
an empty `alternative_diagnoses` list. -/
theorem C5_single_candidate (c : Candidate) (current_month : ℕ) :
    calculate_confidence_metrics [c] current_month =
      some { absolute_confidence := c.similarity.getD 0
             relative_confidence := PyFloat.finite 0
             confidence_margin := 0
             diagnosis_clarity := 0
             symptom_overlap := []
             seasonal_relevance := 0 } ∧
    (diagnose_from_candidates [c] current_month).diagnosis.map
        (fun d => d.confidence_metrics) =
      some { relative_confidence := PyFloat.finite 0
             confidence_margin := 0
             diagnosis_clarity := 0
             symptom_overlap := []
             seasonal_relevance := 0 } ∧
    (diagnose_from_candidates [c] current_month).alternative_diagnoses = some [] :=
  ⟨rfl, rfl, rfl⟩

/-- C2, counterexample: with candidate similarities 1 and -1 the second
similarity is nonzero, yet the source computes `float('inf')` instead of the
claimed quotient 1 / (-1); and with similarities 1 and 0 the result is again
the non-finite `inf`, not a representable sentinel. -/
theorem C2_counterexample :
    get_relative_confidence (calculate_confidence_metrics
      [{ disease_name := some "A", similarity := some 1 },
       { disease_name := some "B", similarity := some (-1) }] 1) = PyFloat.inf ∧
    PyFloat.inf ≠ PyFloat.finite ((1 : ℚ) / (-1 : ℚ)) ∧
    get_relative_confidence (calculate_confidence_metrics
      [{ disease_name := some "A", similarity := some 1 },
       { disease_name := some "B", similarity := some 0 }] 1) = PyFloat.inf := by
  decide

/-- C2, amended: for every candidate list of length ≥ 2, relative confidence
is the quotient `candidates[0].similarity / candidates[1].similarity` exactly
when `candidates[1].similarity > 0`; whenever it is zero or negative the
result is the non-finite `float('inf')` (no finite sentinel is used). -/
theorem C2_relative_confidence (d0 d1 : Candidate) (rest : List Candidate)
    (current_month : ℕ) :
    get_relative_confidence
        (calculate_confidence_metrics (d0 :: d1 :: rest) current_month) =
      (if 0 < d1.similarity.getD 0 then
        PyFloat.finite (d0.similarity.getD 0 / d1.similarity.getD 0)
      else PyFloat.inf) ∧
    (d1.similarity.getD 0 ≤ 0 →
      get_relative_confidence
          (calculate_confidence_metrics (d0 :: d1 :: rest) current_month) =
        PyFloat.inf) := by
  constructor
  · rfl
  · intro h
    have hnot : ¬ 0 < d1.similarity.getD 0 := not_lt.mpr h
    show (if 0 < d1.similarity.getD 0 then
        PyFloat.finite (d0.similarity.getD 0 / d1.similarity.getD 0)
      else PyFloat.inf) = PyFloat.inf
    rw [if_neg hnot]

/-- C2, witness for the amended theorem at similarities 1 and 0. -/
theorem C2_relative_confidence_witness :
    ((0:ℚ) ≤ 0) ∧
    get_relative_confidence (calculate_confidence_metrics
      [{ disease_name := some "A", similarity := some 1 },
       { disease_name := some "B", similarity := some 0 }] 1) = PyFloat.inf :=
  ⟨le_refl 0,
   (C2_relative_confidence
      { disease_name := some "A", similarity := some 1 }
      { disease_name := some "B", similarity := some 0 } [] 1).2 (by decide)⟩

/-- Unfolding lemma for `calculate_seasonal_relevance`. -/
theorem calculate_seasonal_relevance_eq (n : String) (m : ℕ) :
    calculate_seasonal_relevance n m =
      match seasonal_patterns.find? (fun p => p.1 = lower_str n) with
      | none => 1/2
      | some p =>
        if m ∈ p.2.1 then 1 else if m ∈ p.2.2 then 7/10 else 3/10 := rfl

/-- C4: for every candidate list of length ≥ 2 sorted descending by
similarity (missing similarity read as 0), the confidence margin is the
difference of the first two similarities and is nonnegative. -/
theorem C4_confidence_margin (d0 d1 : Candidate) (rest : List Candidate)
    (current_month : ℕ)
    (hsorted : List.Chain' (fun a b => b ≤ a)
      ((d0 :: d1 :: rest).map (fun d => d.similarity.getD 0))) :
    get_confidence_margin
        (calculate_confidence_metrics (d0 :: d1 :: rest) current_month) =
      d0.similarity.getD 0 - d1.similarity.getD 0 ∧
    0 ≤ get_confidence_margin
        (calculate_confidence_metrics (d0 :: d1 :: rest) current_month) := by
  simp only [List.map_cons] at hsorted
  have h01 : d1.similarity.getD 0 ≤ d0.similarity.getD 0 :=
    (List.chain'_cons.mp hsorted).1
  refine ⟨rfl, ?_⟩
  have hm : get_confidence_margin
      (calculate_confidence_metrics (d0 :: d1 :: rest) current_month) =
      d0.similarity.getD 0 - d1.similarity.getD 0 := rfl
  rw [hm]
  exact sub_nonneg.mpr h01

/-- C4, witness at the spec's scenario-A candidate pair. -/
theorem C4_confidence_margin_witness :
    get_confidence_margin (calculate_confidence_metrics
      [{ disease_name := some "Early Blight", similarity := some (92/100),
         symptoms := some "dark spots yellowing" },
       { disease_name := some "Late Blight", similarity := some (61/100),
         symptoms := some "dark lesions fuzzy growth" }] 7) = 92/100 - 61/100 ∧
    0 ≤ get_confidence_margin (calculate_confidence_metrics
      [{ disease_name := some "Early Blight", similarity := some (92/100),
         symptoms := some "dark spots yellowing" },
       { disease_name := some "Late Blight", similarity := some (61/100),
         symptoms := some "dark lesions fuzzy growth" }] 7) :=
  C4_confidence_margin
    { disease_name := some "Early Blight", similarity := some (92/100),
      symptoms := some "dark spots yellowing" }
    { disease_name := some "Late Blight", similarity := some (61/100),
      symptoms := some "dark lesions fuzzy growth" } [] 7 (by
    simp only [List.map_cons, List.map_nil]
    exact List.chain'_cons.mpr ⟨by decide, List.chain'_singleton _⟩)

/-- C8: the seasonal relevance score is always one of 1, 0.7, 0.5, 0.3; it
is 0.5 exactly when the lower-cased name has no entry in the fixed table,
1 when the current month is a peak month of the name's entry, 0.7 when it is
instead a moderate month, and 0.3 otherwise. -/
theorem C8_seasonal_range (disease_name : String) (current_month : ℕ) :
    (calculate_seasonal_relevance disease_name current_month = 1 ∨
     calculate_seasonal_relevance disease_name current_month = 7/10 ∨
     calculate_seasonal_relevance disease_name current_month = 1/2 ∨
     calculate_seasonal_relevance disease_name current_month = 3/10) ∧
    (seasonal_patterns.find? (fun p => p.1 = lower_str disease_name) = none →
      calculate_seasonal_relevance disease_name current_month = 1/2) ∧
    (∀ pat, seasonal_patterns.find? (fun p => p.1 = lower_str disease_name) =
        some pat →
      (current_month ∈ pat.2.1 →
        calculate_seasonal_relevance disease_name current_month = 1) ∧
      (current_month ∉ pat.2.1 → current_month ∈ pat.2.2 →
        calculate_seasonal_relevance disease_name current_month = 7/10) ∧
      (current_month ∉ pat.2.1 → current_month ∉ pat.2.2 →
        calculate_seasonal_relevance disease_name current_month = 3/10)) := by
  cases hfind : seasonal_patterns.find? (fun p => p.1 = lower_str disease_name) with
  | none =>
    have he : calculate_seasonal_relevance disease_name current_month = 1/2 := by
      rw [calculate_seasonal_relevance_eq, hfind]
    exact ⟨Or.inr (Or.inr (Or.inl he)), fun _ => he, fun pat hpat => nomatch hpat⟩
  | some pat0 =>
    have he : calculate_seasonal_relevance disease_name current_month =
        (if current_month ∈ pat0.2.1 then 1
         else if current_month ∈ pat0.2.2 then (7:ℚ)/10 else 3/10) := by
      rw [calculate_seasonal_relevance_eq, hfind]
    by_cases h1 : current_month ∈ pat0.2.1
    · have hv : calculate_seasonal_relevance disease_name current_month = 1 := by
        rw [he, if_pos h1]
      refine ⟨Or.inl hv, fun hn => Option.noConfusion hn, fun pat hpat => ?_⟩
      injection hpat with hp
      subst hp
      exact ⟨fun _ => hv, fun hn _ => absurd h1 hn, fun hn _ => absurd h1 hn⟩
    · by_cases h2 : current_month ∈ pat0.2.2
      · have hv : calculate_seasonal_relevance disease_name current_month =
            7/10 := by rw [he, if_neg h1, if_pos h2]
        refine ⟨Or.inr (Or.inl hv), fun hn => Option.noConfusion hn, fun pat hpat => ?_⟩
        injection hpat with hp
        subst hp
        exact ⟨fun hi => absurd hi h1, fun _ _ => hv, fun _ hn2 => absurd h2 hn2⟩
      · have hv : calculate_seasonal_relevance disease_name current_month =
            3/10 := by rw [he, if_neg h1, if_neg h2]
        refine ⟨Or.inr (Or.inr (Or.inr hv)), fun hn => Option.noConfusion hn,
          fun pat hpat => ?_⟩
        injection hpat with hp
        subst hp
        exact ⟨fun hi => absurd hi h1, fun _ hi => absurd hi h2, fun _ _ => hv⟩

/-- C8, witness: "Early Blight" is in the table and July is a peak month. -/
theorem C8_seasonal_range_witness :
    seasonal_patterns.find? (fun p => p.1 = lower_str "Early Blight") =
      some ("early blight", ([7, 8], [6, 9])) ∧
    calculate_seasonal_relevance "Early Blight" 7 = 1 :=
  ⟨by decide,
   ((C8_seasonal_range "Early Blight" 7).2.2 ("early blight", ([7, 8], [6, 9]))
      (by decide)).1 (by decide)⟩

/-- C9: the embedding normalizer always returns a vector of exactly the
target length: unchanged when the length matches, right-padded with zeros
when shorter, truncated to the first `D` elements when longer. -/
theorem C9_normalize_length (v : List ℚ) (D : ℕ) :
    (normalize_embedding v D).length = D ∧
    (v.length = D → normalize_embedding v D = v) ∧
    (v.length < D → normalize_embedding v D = v ++ List.replicate (D - v.length) 0) ∧
    (D < v.length → normalize_embedding v D = v.take D) := by
  unfold normalize_embedding
  by_cases hne : v.length ≠ D
  · rw [if_pos hne]
    by_cases hlt : v.length < D
    · rw [if_pos hlt]
      refine ⟨?_, fun h => absurd h hne, fun _ => rfl, fun h => absurd h (by omega)⟩
      simp only [List.length_append, List.length_replicate]
      omega
    · rw [if_neg hlt]
      refine ⟨?_, fun h => absurd h hne, fun h => absurd h hlt, fun _ => rfl⟩
      rw [List.length_take]
      omega
  · rw [if_neg hne]
    push_neg at hne
    exact ⟨hne, fun _ => rfl, fun h => absurd h (by omega), fun h => absurd h (by omega)⟩

/-- C9, witness: a length-2 vector padded to length 3. -/
theorem C9_normalize_length_witness :
    (normalize_embedding [1, 2] 3).length = 3 ∧
    ([1, 2] : List ℚ).length < 3 ∧
    normalize_embedding [1, 2] 3 = [1, 2] ++ List.replicate 1 0 :=
  ⟨(C9_normalize_length [1, 2] 3).1, by decide,
   (C9_normalize_length [1, 2] 3).2.2.1 (by decide)⟩

/-- C6: the symptom overlap score is symmetric in its two text inputs. -/
theorem C6_overlap_symm (a b : String) :
    calculate_symptom_overlap a b = calculate_symptom_overlap b a := by
  rw [calculate_symptom_overlap_eq, calculate_symptom_overlap_eq]
  by_cases h1 : a = "" ∨ b = ""
  · have h1' : b = "" ∨ a = "" := h1.symm
    rw [if_pos h1, if_pos h1']
  · have h1' : ¬(b = "" ∨ a = "") := fun h => h1 h.symm
    rw [if_neg h1, if_neg h1']
    by_cases h2 : process_symptoms a = ∅ ∨ process_symptoms b = ∅
    · have h2' : process_symptoms b = ∅ ∨ process_symptoms a = ∅ := h2.symm
      rw [if_pos h2, if_pos h2']
    · have h2' : ¬(process_symptoms b = ∅ ∨ process_symptoms a = ∅) :=
        fun h => h2 h.symm
      rw [if_neg h2, if_neg h2']
      rw [Finset.union_comm (process_symptoms b) (process_symptoms a),
          Finset.inter_comm (process_symptoms b) (process_symptoms a)]

/-- C7: the overlap score always lies in [0, 1]; it is 0 when either raw
input is empty or either processed word set is empty, and 1 when both inputs
process to the same non-empty word set. -/
theorem C7_overlap_range (a b : String) :
    (0 ≤ calculate_symptom_overlap a b ∧ calculate_symptom_overlap a b ≤ 1) ∧
    (a = "" ∨ b = "" → calculate_symptom_overlap a b = 0) ∧
    (process_symptoms a = ∅ ∨ process_symptoms b = ∅ →
      calculate_symptom_overlap a b = 0) ∧
    (process_symptoms a = process_symptoms b ∧ process_symptoms a ≠ ∅ →
      calculate_symptom_overlap a b = 1) := by
  rw [calculate_symptom_overlap_eq]
  refine ⟨?_, ?_, ?_, ?_⟩
  · by_cases h1 : a = "" ∨ b = ""
    · rw [if_pos h1]
      exact ⟨le_refl 0, zero_le_one⟩
    · rw [if_neg h1]
      by_cases h2 : process_symptoms a = ∅ ∨ process_symptoms b = ∅
      · rw [if_pos h2]
        exact ⟨le_refl 0, zero_le_one⟩
      · rw [if_neg h2]
        by_cases h3 : 0 < (process_symptoms a ∪ process_symptoms b).card
        · rw [if_pos h3]
          constructor
          · exact div_nonneg (Nat.cast_nonneg _) (Nat.cast_nonneg _)
          · rw [div_le_one (by exact_mod_cast h3)]
            exact_mod_cast Finset.card_le_card
              (Finset.inter_subset_union
                (s := process_symptoms a) (t := process_symptoms b))
        · rw [if_neg h3]
          exact ⟨le_refl 0, zero_le_one⟩
  · intro h
    rw [if_pos h]
  · intro h
    by_cases h1 : a = "" ∨ b = ""
    · rw [if_pos h1]
    · rw [if_neg h1, if_pos h]
  · rintro ⟨heq, hne⟩
    have ha : a ≠ "" := fun h => hne (by rw [h]; exact process_symptoms_empty)
    have hb : b ≠ "" := fun h => hne (by rw [heq, h]; exact process_symptoms_empty)
    have hbne : process_symptoms b ≠ ∅ := by rw [← heq]; exact hne
    have hg1 : ¬(a = "" ∨ b = "") := fun h => h.elim ha hb
    have hg2 : ¬(process_symptoms a = ∅ ∨ process_symptoms b = ∅) :=
      fun h => h.elim hne hbne
    have hcard0 : (process_symptoms b).card ≠ 0 :=
      fun hc => hbne (Finset.card_eq_zero.mp hc)
    rw [if_neg hg1, if_neg hg2, heq, Finset.inter_self, Finset.union_self,
        if_pos (Nat.pos_of_ne_zero hcard0)]
    exact div_self (by exact_mod_cast hcard0)

/-- C7, witness: identical word sets up to case, punctuation and order give
1, and an empty first input gives 0. -/
theorem C7_overlap_range_witness :
    calculate_symptom_overlap "Dark spots, yellowing." "yellowing dark spots" = 1 ∧
    calculate_symptom_overlap "" "spots" = 0 :=
  ⟨(C7_overlap_range "Dark spots, yellowing." "yellowing dark spots").2.2.2
     ⟨by decide, by decide⟩,
   (C7_overlap_range "" "spots").2.1 (Or.inl rfl)⟩

/-- Zip of a list with its image under a map pairs each element with its own
image. -/
theorem zip_map_snd {α β : Type _} (f : α → β) :
    ∀ (l : List α) (p : α × β), p ∈ l.zip (l.map f) → p.2 = f p.1 := by
  intro l
  induction l with
  | nil =>
    intro p hp
    cases hp
  | cons a t ih =>
    intro p hp
    rw [List.map_cons, List.zip_cons_cons] at hp
    cases hp with
    | head => rfl
    | tail _ h => exact ih p h

/-- C10: no candidate shape makes the assembler fail (a non-empty list always
yields a success result), and missing fields fall back to their documented
defaults: a missing similarity reads as 0.0 for the primary confidence, the
absolute confidence and each alternative's confidence; a missing disease name
yields "Unknown Disease" in the assembled result and "Unknown" in
symptom-overlap entries; missing symptoms read as empty text, so the overlap
score of any entry involving them is 0.0. -/
theorem C10_missing_fields (c : Candidate) (alts : List Candidate)
    (current_month : ℕ) :
    (diagnose_from_candidates (c :: alts) current_month).success = true ∧
    (c.similarity = none →
      ((diagnose_from_candidates (c :: alts) current_month).diagnosis.map
          (fun d => d.confidence) = some 0 ∧
        get_absolute_confidence
          (calculate_confidence_metrics (c :: alts) current_month) = 0)) ∧
    (c.disease_name = none →
      (diagnose_from_candidates (c :: alts) current_month).diagnosis.map
          (fun d => d.primary_disease) = some "Unknown Disease") ∧
    (∀ p ∈ alts.zip
        (((diagnose_from_candidates (c :: alts) current_month).alternative_diagnoses).getD []),
      (p.1.similarity = none → p.2.confidence = 0) ∧
      (p.1.disease_name = none → p.2.disease_name = "Unknown Disease")) ∧
    (∀ p ∈ alts.zip
        (get_symptom_overlap (calculate_confidence_metrics (c :: alts) current_month)),
      (p.1.disease_name = none → p.2.disease = "Unknown") ∧
      (c.symptoms = none ∨ p.1.symptoms = none → p.2.overlap_score = 0)) := by
  refine ⟨rfl, ?_, ?_, ?_, ?_⟩
  · intro h
    constructor
    · show some (c.similarity.getD 0) = some 0
      rw [h]
      rfl
    · rw [get_absolute_confidence_cons, h]
      rfl
  · intro h
    show some (c.disease_name.getD "Unknown Disease") = some "Unknown Disease"
    rw [h]
    rfl
  · intro p hp
    have halt : ((diagnose_from_candidates (c :: alts) current_month).alternative_diagnoses).getD []
        = alts.map (fun d =>
            ({ disease_name := d.disease_name.getD "Unknown Disease"
               confidence := d.similarity.getD 0
               description := d.description.getD "No description available" } :
              AltDiagnosis)) := rfl
    rw [halt] at hp
    have h2 := zip_map_snd _ alts p hp
    refine ⟨fun hsim => ?_, fun hdn => ?_⟩
    · rw [h2]
      show p.1.similarity.getD 0 = 0
      rw [hsim]
      rfl
    · rw [h2]
      show p.1.disease_name.getD "Unknown Disease" = "Unknown Disease"
      rw [hdn]
      rfl
  · cases alts with
    | nil =>
      intro p hp
      cases hp
    | cons d1 rest =>
      intro p hp
      have hov : get_symptom_overlap
          (calculate_confidence_metrics (c :: d1 :: rest) current_month)
          = (d1 :: rest).map (fun d =>
              ({ disease := d.disease_name.getD "Unknown"
                 overlap_score := calculate_symptom_overlap (c.symptoms.getD "")
                   (d.symptoms.getD "") } : OverlapEntry)) := rfl
      rw [hov] at hp
      have h2 := zip_map_snd _ (d1 :: rest) p hp
      refine ⟨fun hdn => ?_, fun hsym => ?_⟩
      · rw [h2]
        show p.1.disease_name.getD "Unknown" = "Unknown"
        rw [hdn]
        rfl
      · rw [h2]
        show calculate_symptom_overlap (c.symptoms.getD "") (p.1.symptoms.getD "") = 0
        cases hsym with
        | inl hc =>
          rw [hc]
          exact calculate_symptom_overlap_empty_left _
        | inr hp1 =>
          rw [hp1]
          exact calculate_symptom_overlap_empty_right _

/-- C10, witness: a two-candidate list whose records carry no fields at
all still assembles successfully, with all defaults visible. -/
theorem C10_missing_fields_witness :
    (diagnose_from_candidates [{}, {}] 7).success = true ∧
    (diagnose_from_candidates [{}, {}] 7).diagnosis.map
      (fun d => d.confidence) = some 0 ∧
    (diagnose_from_candidates [{}, {}] 7).diagnosis.map
      (fun d => d.primary_disease) = some "Unknown Disease" ∧
    ((({} : Candidate),
      ({ disease_name := "Unknown Disease", confidence := 0,
         description := "No description available" } : AltDiagnosis)) :
        Candidate × AltDiagnosis).2.confidence = 0 ∧
    ((({} : Candidate),
      ({ disease := "Unknown", overlap_score := 0 } : OverlapEntry)) :
        Candidate × OverlapEntry).2.overlap_score = 0 := by
  have h := C10_missing_fields {} [{}] 7
  refine ⟨h.1, (h.2.1 rfl).1, h.2.2.1 rfl, ?_, ?_⟩
  · exact (h.2.2.2.1 _ (by decide)).1 rfl
  · exact (h.2.2.2.2 _ (by decide)).2 (Or.inl rfl)
